import Mathlib

/-!
# Coin control (`src/wallet/coincontrol.h`)

A shallow embedding of `CCoinControl`, the coin-selection constraint
descriptor of the wallet, and of the `CoinType` enumeration, followed by
theorems about its pin / unpin bookkeeping, its coin-type helpers and its
reset.

Each C++ member function that mutates the object is a function from the
state before the call to the state after it; each `const` member function is
a function of the state.  The two private `std::set<COutPoint>` members are
finite sets over a linearly ordered type of output references, with
`insert`, `erase`, `clear`, `size`, `count` and in-order iteration.
-/

/-! ## Types the header uses but does not declare -/

/-- Modelled from the spec: `COutPoint` is declared in
`primitives/transaction.h`, which is not part of the sources at hand.  The
spec describes an output reference as "transaction id + index"; the
transaction id (a 256-bit hash) and the index (32 bits) are natural
numbers here. -/
structure COutPoint where
  hash : Nat
  n : Nat
  deriving DecidableEq

/-- The pair an output reference is ordered by: transaction id first, index
second. -/
def COutPoint.key (p : COutPoint) : Lex (Nat × Nat) := toLex (p.hash, p.n)

/-- Modelled from the spec: the strict weak order `std::set<COutPoint>`
iterates in (`operator<` of `COutPoint`, declared outside the sources at
hand) is the lexicographic order on (transaction id, index). -/
instance : LinearOrder COutPoint :=
  LinearOrder.lift' COutPoint.key (by
    intro a b h
    cases a
    cases b
    simp only [COutPoint.key, EmbeddingLike.apply_eq_iff_eq, Prod.mk.injEq] at h
    simp [h.1, h.2])

/-- Modelled from the spec: `CTxDestination` is declared in
`script/standard.h`, which is not part of the sources at hand; the spec
calls it an optional "output-script/address identifier".  `CNoDestination`
is the absent destination. -/
inductive CTxDestination where
  | CNoDestination
  | CKeyID (id : Nat)
  | CScriptID (id : Nat)
  deriving DecidableEq

/-- Modelled from the spec: `CFeeRate` is declared in `policy/feerate.h`,
which is not part of the sources at hand; a fee-rate value is an amount per
1000 bytes. -/
structure CFeeRate where
  nSatoshisPerK : Int
  deriving DecidableEq

/-- Modelled from the spec: `FeeEstimateMode` is declared in
`policy/fees.h`, which is not part of the sources at hand; the spec only
says it is an enumeration of estimation strategies. -/
inductive FeeEstimateMode where
  | UNSET
  | ECONOMICAL
  | CONSERVATIVE
  deriving DecidableEq

/-! ## `enum class CoinType` -/

/-- A value of type `CoinType`.  The header declares a scoped enumeration
without a fixed list of representable values: its underlying type is `int`,
and an object of the type holds whatever value of the underlying type was
put in it (the member `nCoinType` is public and is left uninitialised until
the constructor body runs).  A value is therefore given by its underlying
integer; the enumerators below are six named values among them. -/
structure CoinType where
  underlying : Int
  deriving DecidableEq

namespace CoinType

/-- The first enumerator, `ALL_COINS`: no initialiser, so its value is 0. -/
def ALL_COINS : CoinType := ⟨0⟩

/-- The enumerator `ONLY_FULLY_MIXED`: no initialiser, so its value is that
of the enumerator before it plus one. -/
def ONLY_FULLY_MIXED : CoinType := ⟨ALL_COINS.underlying + 1⟩

/-- The enumerator `ONLY_READY_TO_MIX`: the one before it plus one. -/
def ONLY_READY_TO_MIX : CoinType := ⟨ONLY_FULLY_MIXED.underlying + 1⟩

/-- The enumerator `ONLY_NONDENOMINATED`: the one before it plus one. -/
def ONLY_NONDENOMINATED : CoinType := ⟨ONLY_READY_TO_MIX.underlying + 1⟩

/-- The enumerator `ONLY_SMARTNODE_COLLATERAL`: the one before it plus
one. -/
def ONLY_SMARTNODE_COLLATERAL : CoinType := ⟨ONLY_NONDENOMINATED.underlying + 1⟩

/-- The enumerator `ONLY_COINJOIN_COLLATERAL`: the one before it plus
one. -/
def ONLY_COINJOIN_COLLATERAL : CoinType := ⟨ONLY_SMARTNODE_COLLATERAL.underlying + 1⟩

/-- The enumerator `MIN_COIN_TYPE = ALL_COINS`. -/
def MIN_COIN_TYPE : CoinType := ALL_COINS

/-- The enumerator `MAX_COIN_TYPE = ONLY_COINJOIN_COLLATERAL`. -/
def MAX_COIN_TYPE : CoinType := ONLY_COINJOIN_COLLATERAL

end CoinType

/-! ## `std::set<COutPoint>` -/

/-- The operations of `std::set<COutPoint>` the header calls.  A set holds
each key at most once; `insert` of a key already held and `erase` of a key
not held change nothing; iteration visits the keys in ascending order. -/
abbrev OutPointSet := Finset COutPoint

namespace OutPointSet

/-- The member `std::set::size`. -/
def size (t : OutPointSet) : Nat := t.card

/-- The member `std::set::count`: the number of keys equal to `x`, which is
`1` or `0`. -/
def count (t : OutPointSet) (x : COutPoint) : Nat := if x ∈ t then 1 else 0

/-- The member `std::set::insert`. -/
def insert (t : OutPointSet) (x : COutPoint) : OutPointSet := Insert.insert x t

/-- The member `std::set::erase` (by key). -/
def erase (t : OutPointSet) (x : COutPoint) : OutPointSet := Finset.erase t x

/-- The member `std::set::clear`. -/
def clear (_t : OutPointSet) : OutPointSet := ∅

/-- The range `begin() .. end()`: the keys in ascending order.  The keys
of the set, held in some order, are put in ascending order by insertion; the
result does not depend on the order they were held in. -/
def toVector (t : OutPointSet) : List COutPoint :=
  Quot.liftOn t.val (fun l => List.insertionSort (· ≤ ·) l) (fun _ _ h =>
    List.eq_of_perm_of_sorted
      (((List.perm_insertionSort _ _).trans h).trans (List.perm_insertionSort _ _).symm)
      (List.sorted_insertionSort _ _) (List.sorted_insertionSort _ _))

end OutPointSet

/-! ## `class CCoinControl` -/

/-- The data members of `CCoinControl`, the two private sets included. -/
structure CCoinControl where
  destChange : CTxDestination
  assetDestChange : CTxDestination
  fAllowOtherInputs : Bool
  fRequireAllInputs : Bool
  fAllowWatchOnly : Bool
  fOverrideFeeRate : Bool
  m_feerate : Option CFeeRate
  m_discard_feerate : Option CFeeRate
  m_confirm_target : Option Nat
  m_avoid_partial_spends : Bool
  m_fee_mode : FeeEstimateMode
  m_min_depth : Int
  nCoinType : CoinType
  strAssetSelected : String
  setSelected : OutPointSet
  setAssetsSelected : OutPointSet
  deriving DecidableEq

namespace CCoinControl

/-- The member `bool HasSelected() const`: `setSelected.size() > 0`. -/
def HasSelected (s : CCoinControl) : Bool :=
  decide (s.setSelected.size > 0)

/-- The member `bool HasAssetSelected() const`:
`setAssetsSelected.size() > 0`. -/
def HasAssetSelected (s : CCoinControl) : Bool :=
  decide (s.setAssetsSelected.size > 0)

/-- The member `bool IsSelected(const COutPoint &output) const`:
`setSelected.count(output) > 0`. -/
def IsSelected (s : CCoinControl) (output : COutPoint) : Bool :=
  decide (s.setSelected.count output > 0)

/-- The member `bool IsAssetSelected(const COutPoint &output) const`:
`setAssetsSelected.count(output) > 0`. -/
def IsAssetSelected (s : CCoinControl) (output : COutPoint) : Bool :=
  decide (s.setAssetsSelected.count output > 0)

/-- The body of `Select`: `setSelected.insert(output)`. -/
def Select (s : CCoinControl) (output : COutPoint) : CCoinControl :=
  { s with setSelected := s.setSelected.insert output }

/-- The body of `SelectAsset`: `setAssetsSelected.insert(output)`. -/
def SelectAsset (s : CCoinControl) (output : COutPoint) : CCoinControl :=
  { s with setAssetsSelected := s.setAssetsSelected.insert output }

/-- The body of `UnSelect`: `setSelected.erase(output)`. -/
def UnSelect (s : CCoinControl) (output : COutPoint) : CCoinControl :=
  { s with setSelected := s.setSelected.erase output }

/-- The body of `UnSelectAsset`: erase `output` from `setAssetsSelected`,
then, if `setSelected.size()` is zero, assign `""` to `strAssetSelected`. -/
def UnSelectAsset (s : CCoinControl) (output : COutPoint) : CCoinControl :=
  let s1 : CCoinControl := { s with setAssetsSelected := s.setAssetsSelected.erase output }
  if s1.setSelected.size = 0 then { s1 with strAssetSelected := "" } else s1

/-- The body of `UnSelectAll`: clear `setSelected`, assign `""` to
`strAssetSelected`, clear `setAssetsSelected`. -/
def UnSelectAll (s : CCoinControl) : CCoinControl :=
  let s1 : CCoinControl := { s with setSelected := s.setSelected.clear }
  let s2 : CCoinControl := { s1 with strAssetSelected := "" }
  { s2 with setAssetsSelected := s2.setAssetsSelected.clear }

/-- The member `ListSelected`: the vector passed in is overwritten with the
range `setSelected.begin() .. setSelected.end()`; the new contents of the
vector are the result. -/
def ListSelected (s : CCoinControl) : List COutPoint := s.setSelected.toVector

/-- The member `ListSelectedAssets`: as `ListSelected`, over
`setAssetsSelected`. -/
def ListSelectedAssets (s : CCoinControl) : List COutPoint := s.setAssetsSelected.toVector

/-- The body of `UseCoinJoin`:
`nCoinType = fUseCoinJoin ? ONLY_FULLY_MIXED : ALL_COINS`. -/
def UseCoinJoin (s : CCoinControl) (fUseCoinJoin : Bool) : CCoinControl :=
  { s with nCoinType := if fUseCoinJoin then CoinType.ONLY_FULLY_MIXED else CoinType.ALL_COINS }

/-- The member `bool IsUsingCoinJoin() const`:
`nCoinType == CoinType::ONLY_FULLY_MIXED`. -/
def IsUsingCoinJoin (s : CCoinControl) : Bool :=
  decide (s.nCoinType = CoinType.ONLY_FULLY_MIXED)

/-- Modelled from the spec: `SetNull` is declared in the header
(`void SetNull(bool fResetCoinType = true);`) but its body is in
`wallet/coincontrol.cpp`, which is not part of the sources at hand.  The
spec says it "restores every field to its default value
(`allowOtherInputs=true`, `requireAllInputs=true`, `allowWatchOnly=false`,
`overrideFeeRate=false`, all optional overrides cleared, `minDepth=0`,
`avoidPartialSpends=false`, fee-estimate mode at its default, destinations
cleared, both pinned-output sets cleared, `selectedAssetId` cleared).  When
`resetCoinTypeFilter` is false, `coinTypeFilter` is left unchanged;
otherwise it is reset to `ALL_COINS`."  The default fee-estimate mode is
taken to be `UNSET` and a cleared destination to be `CNoDestination`. -/
def SetNull (s : CCoinControl) (fResetCoinType : Bool) : CCoinControl where
  destChange := CTxDestination.CNoDestination
  assetDestChange := CTxDestination.CNoDestination
  fAllowOtherInputs := true
  fRequireAllInputs := true
  fAllowWatchOnly := false
  fOverrideFeeRate := false
  m_feerate := none
  m_discard_feerate := none
  m_confirm_target := none
  m_avoid_partial_spends := false
  m_fee_mode := FeeEstimateMode.UNSET
  m_min_depth := 0
  nCoinType := if fResetCoinType then CoinType.ALL_COINS else s.nCoinType
  strAssetSelected := ""
  setSelected := s.setSelected.clear
  setAssetsSelected := s.setAssetsSelected.clear

/-- The constructor `CCoinControl() { SetNull(); }`.  The argument `raw` is
the object as it is when the constructor body starts (members without an
initialiser hold indeterminate values); the body calls `SetNull` with the
default argument `fResetCoinType = true` of its declaration.  (Inside this
namespace the name of the class is the type of states, so the constructor is
called `construct`.) -/
def construct (raw : CCoinControl) : CCoinControl := raw.SetNull true

end CCoinControl

/-! ## Concrete states used to evaluate the operations -/

/-- An output reference: transaction 1, output 0. -/
def outpointA : COutPoint := ⟨1, 0⟩

/-- An output reference: transaction 2, output 0. -/
def outpointB : COutPoint := ⟨2, 0⟩

/-- An output reference: transaction 3, output 1. -/
def outpointC : COutPoint := ⟨3, 1⟩

/-- A state with nothing pinned and no asset id. -/
def unpinnedControl : CCoinControl where
  destChange := CTxDestination.CNoDestination
  assetDestChange := CTxDestination.CNoDestination
  fAllowOtherInputs := true
  fRequireAllInputs := true
  fAllowWatchOnly := false
  fOverrideFeeRate := false
  m_feerate := none
  m_discard_feerate := none
  m_confirm_target := none
  m_avoid_partial_spends := false
  m_fee_mode := FeeEstimateMode.UNSET
  m_min_depth := 0
  nCoinType := CoinType.ALL_COINS
  strAssetSelected := ""
  setSelected := ∅
  setAssetsSelected := ∅

/-- A state with `nCoinType = ONLY_READY_TO_MIX`, every policy flag and
optional override away from the values `SetNull` assigns, and pins in both
sets. -/
def customControl : CCoinControl where
  destChange := CTxDestination.CKeyID 7
  assetDestChange := CTxDestination.CScriptID 9
  fAllowOtherInputs := false
  fRequireAllInputs := false
  fAllowWatchOnly := true
  fOverrideFeeRate := true
  m_feerate := some ⟨1000⟩
  m_discard_feerate := some ⟨10⟩
  m_confirm_target := some 6
  m_avoid_partial_spends := true
  m_fee_mode := FeeEstimateMode.CONSERVATIVE
  m_min_depth := 3
  nCoinType := CoinType.ONLY_READY_TO_MIX
  strAssetSelected := "ASSET1"
  setSelected := {outpointB}
  setAssetsSelected := {outpointC}

/-- The state `unpinnedControl` with the asset id `"ASSET1"` assigned to the
public member `strAssetSelected`. -/
def assetIdOnlyControl : CCoinControl :=
  { unpinnedControl with strAssetSelected := "ASSET1" }

/-- The state reached from `unpinnedControl` by `Select(A)`, `Select(B)`,
the assignment `strAssetSelected = "ASSET1"`, and `SelectAsset(C)`. -/
def pinnedScenario : CCoinControl :=
  CCoinControl.SelectAsset
    { CCoinControl.Select (CCoinControl.Select unpinnedControl outpointA) outpointB with
      strAssetSelected := "ASSET1" }
    outpointC

/-! ## Facts about the set operations -/

namespace OutPointSet

theorem mem_toVector (t : OutPointSet) (x : COutPoint) : x ∈ t.toVector ↔ x ∈ t := by
  obtain ⟨⟨l⟩, hl⟩ := t
  show x ∈ List.insertionSort (· ≤ ·) l ↔ x ∈ l
  exact (List.perm_insertionSort (· ≤ ·) l).mem_iff

theorem nodup_toVector (t : OutPointSet) : t.toVector.Nodup := by
  obtain ⟨⟨l⟩, hl⟩ := t
  have hl2 : l.Nodup := hl
  show (List.insertionSort (· ≤ ·) l).Nodup
  exact (List.perm_insertionSort (· ≤ ·) l).nodup_iff.mpr hl2

theorem sorted_toVector (t : OutPointSet) : t.toVector.Sorted (· ≤ ·) := by
  obtain ⟨⟨l⟩, hl⟩ := t
  exact List.sorted_insertionSort (· ≤ ·) l

theorem toVector_eq_sort (t : OutPointSet) : t.toVector = Finset.sort (· ≤ ·) t :=
  List.eq_of_perm_of_sorted
    (List.perm_of_nodup_nodup_toFinset_eq (nodup_toVector t) (Finset.sort_nodup _ t)
      (by ext x; simp [mem_toVector]))
    (sorted_toVector t) (Finset.sort_sorted _ t)

theorem toVector_clear (t : OutPointSet) : t.clear.toVector = [] := rfl

theorem count_pos_iff (t : OutPointSet) (x : COutPoint) : t.count x > 0 ↔ x ∈ t := by
  unfold count
  split <;> simp [*]

theorem mem_insert (t : OutPointSet) (x y : COutPoint) : y ∈ t.insert x ↔ y = x ∨ y ∈ t :=
  Finset.mem_insert

theorem mem_erase (t : OutPointSet) (x y : COutPoint) : y ∈ t.erase x ↔ y ≠ x ∧ y ∈ t :=
  Finset.mem_erase

theorem insert_of_mem (t : OutPointSet) (x : COutPoint) (h : x ∈ t) : t.insert x = t :=
  Finset.insert_eq_of_mem h

theorem erase_of_not_mem (t : OutPointSet) (x : COutPoint) (h : x ∉ t) : t.erase x = t :=
  Finset.erase_eq_of_not_mem h

theorem insert_comm (t : OutPointSet) (x y : COutPoint) :
    (t.insert x).insert y = (t.insert y).insert x :=
  Finset.Insert.comm y x t

theorem erase_insert (t : OutPointSet) (x : COutPoint) (h : x ∉ t) :
    (t.insert x).erase x = t :=
  Finset.erase_insert h

theorem size_pos_iff (t : OutPointSet) : t.size > 0 ↔ t.Nonempty :=
  Finset.card_pos

theorem toVector_ne_nil_iff (t : OutPointSet) : t.toVector ≠ [] ↔ t.Nonempty := by
  constructor
  · intro h
    obtain ⟨x, hx⟩ := List.exists_mem_of_ne_nil _ h
    exact ⟨x, (mem_toVector t x).mp hx⟩
  · rintro ⟨x, hx⟩
    exact List.ne_nil_of_mem ((mem_toVector t x).mpr hx)

end OutPointSet

namespace CCoinControl

theorem isSelected_iff (s : CCoinControl) (r : COutPoint) :
    s.IsSelected r = true ↔ r ∈ s.setSelected := by
  simp [IsSelected, OutPointSet.count_pos_iff]

theorem isAssetSelected_iff (s : CCoinControl) (r : COutPoint) :
    s.IsAssetSelected r = true ↔ r ∈ s.setAssetsSelected := by
  simp [IsAssetSelected, OutPointSet.count_pos_iff]

theorem unSelectAsset_setAssetsSelected (s : CCoinControl) (r : COutPoint) :
    (s.UnSelectAsset r).setAssetsSelected = s.setAssetsSelected.erase r := by
  unfold UnSelectAsset
  dsimp only
  split <;> rfl

theorem unSelectAsset_setSelected (s : CCoinControl) (r : COutPoint) :
    (s.UnSelectAsset r).setSelected = s.setSelected := by
  unfold UnSelectAsset
  dsimp only
  split <;> rfl

theorem unSelectAsset_strAssetSelected (s : CCoinControl) (r : COutPoint) :
    (s.UnSelectAsset r).strAssetSelected
      = if s.setSelected.size = 0 then "" else s.strAssetSelected := by
  unfold UnSelectAsset
  dsimp only
  split <;> rfl

end CCoinControl

/-- Not every value of type `CoinType` is within the bounds of the
enumeration: the value with underlying integer 42 is above
`MAX_COIN_TYPE`, and a state may hold it. -/
theorem CoinType.exists_outside_bounds :
    ∃ s : CCoinControl,
      ¬ (CoinType.MIN_COIN_TYPE.underlying ≤ s.nCoinType.underlying
        ∧ s.nCoinType.underlying ≤ CoinType.MAX_COIN_TYPE.underlying) :=
  ⟨{ customControl with nCoinType := ⟨42⟩ }, by decide⟩

/-! ## Unpinning a secondary-asset output -/

/-- C1: evaluation of the scenario `Select(A)`, `Select(B)`,
`strAssetSelected = "ASSET1"`, `SelectAsset(C)`, `UnSelectAsset(C)`.  After
the last call the secondary-asset set is empty and `HasAssetSelected` is
false, the base-asset list is still `[A, B]`, and `strAssetSelected` is
still `"ASSET1"`, not the empty string: the test in `UnSelectAsset` reads
the size of `setSelected`, which is 2 here. -/
theorem C1_unselectAsset_scenario_keeps_asset_id :
    (pinnedScenario.UnSelectAsset outpointC).setAssetsSelected = ∅
      ∧ (pinnedScenario.UnSelectAsset outpointC).HasAssetSelected = false
      ∧ (pinnedScenario.UnSelectAsset outpointC).ListSelected = [outpointA, outpointB]
      ∧ (pinnedScenario.UnSelectAsset outpointC).strAssetSelected = "ASSET1"
      ∧ (pinnedScenario.UnSelectAsset outpointC).strAssetSelected ≠ "" := by
  decide

/-- C2 as stated fails: in the state with nothing pinned and asset id
`"ASSET1"`, the reference `C` is not in the secondary-asset set, yet
`UnSelectAsset(C)` clears `strAssetSelected`, so the state changes. -/
theorem C2_unselectAsset_absent_not_noop :
    outpointC ∉ assetIdOnlyControl.setAssetsSelected
      ∧ (assetIdOnlyControl.UnSelectAsset outpointC).strAssetSelected = ""
      ∧ assetIdOnlyControl.strAssetSelected = "ASSET1"
      ∧ assetIdOnlyControl.UnSelectAsset outpointC ≠ assetIdOnlyControl := by
  decide

/-- C2 (amended): for every state `s` and every reference `r` not in the
secondary-asset set of `s`, `UnSelectAsset(r)` changes no field other than
`strAssetSelected`, which it leaves as it was or clears to the empty string
(so the call returns `s` when the asset id is already empty).  When both
pinned sets of `s` are non-empty the call returns `s`, asset id included;
when both pinned sets of `s` are empty the call clears the asset id and
changes nothing else. -/
theorem C2_unselectAsset_absent_frame (s : CCoinControl) (r : COutPoint)
    (h : r ∉ s.setAssetsSelected) :
    (s.UnSelectAsset r = s ∨ s.UnSelectAsset r = { s with strAssetSelected := "" })
      ∧ (s.HasSelected = true → s.HasAssetSelected = true → s.UnSelectAsset r = s)
      ∧ (s.HasSelected = false → s.HasAssetSelected = false →
          s.UnSelectAsset r = { s with strAssetSelected := "" }) := by
  have he : s.setAssetsSelected.erase r = s.setAssetsSelected :=
    OutPointSet.erase_of_not_mem _ _ h
  unfold CCoinControl.UnSelectAsset CCoinControl.HasSelected
  simp only [he]
  refine ⟨?_, ?_, ?_⟩
  · by_cases hz : s.setSelected.size = 0
    · right
      simp [hz]
    · left
      simp [hz]
  · intro hb _
    have hz : ¬ s.setSelected.size = 0 := by
      have := of_decide_eq_true hb
      omega
    simp [hz]
  · intro hb _
    have hz : s.setSelected.size = 0 := by
      have := of_decide_eq_false hb
      omega
    simp [hz]

/-- C2 (amended), at concrete inputs.  In the state `customControl` both
sets are non-empty, the asset id is `"ASSET1"` and `A` is not an asset pin:
`UnSelectAsset(A)` returns that state.  In the state with nothing pinned and
asset id `"ASSET1"`, `UnSelectAsset(C)` clears the asset id and changes
nothing else. -/
theorem C2_unselectAsset_absent_frame_witness :
    (outpointA ∉ customControl.setAssetsSelected
        ∧ customControl.HasSelected = true
        ∧ customControl.HasAssetSelected = true
        ∧ customControl.strAssetSelected = "ASSET1"
        ∧ customControl.UnSelectAsset outpointA = customControl)
      ∧ (outpointC ∉ assetIdOnlyControl.setAssetsSelected
        ∧ assetIdOnlyControl.HasSelected = false
        ∧ assetIdOnlyControl.HasAssetSelected = false
        ∧ assetIdOnlyControl.strAssetSelected = "ASSET1"
        ∧ assetIdOnlyControl.UnSelectAsset outpointC
            = { assetIdOnlyControl with strAssetSelected := "" }) :=
  ⟨⟨by decide, by decide, by decide, by decide,
      (C2_unselectAsset_absent_frame customControl outpointA (by decide)).2.1
        (by decide) (by decide)⟩,
    ⟨by decide, by decide, by decide, by decide,
      (C2_unselectAsset_absent_frame assetIdOnlyControl outpointC (by decide)).2.2
        (by decide) (by decide)⟩⟩

/-! ## Pinning and membership -/

/-- C3: for every state `s` and reference `r`, `IsSelected(r)` is true after
`Select(r)` and `IsAssetSelected(r)` is true after `SelectAsset(r)`. -/
theorem C3_select_then_isSelected (s : CCoinControl) (r : COutPoint) :
    (s.Select r).IsSelected r = true ∧ (s.SelectAsset r).IsAssetSelected r = true := by
  constructor
  · rw [CCoinControl.isSelected_iff]
    exact (OutPointSet.mem_insert _ _ _).mpr (Or.inl rfl)
  · rw [CCoinControl.isAssetSelected_iff]
    exact (OutPointSet.mem_insert _ _ _).mpr (Or.inl rfl)

/-- C4: for every state `s` and reference `r`, `IsSelected(r)` is false
after `UnSelect(r)` and `IsAssetSelected(r)` is false after
`UnSelectAsset(r)`, whether or not `r` was pinned in `s`. -/
theorem C4_unselect_then_not_isSelected (s : CCoinControl) (r : COutPoint) :
    (s.UnSelect r).IsSelected r = false ∧ (s.UnSelectAsset r).IsAssetSelected r = false := by
  constructor
  · rw [← Bool.not_eq_true, CCoinControl.isSelected_iff]
    intro hm
    exact ((OutPointSet.mem_erase _ _ _).mp hm).1 rfl
  · rw [← Bool.not_eq_true, CCoinControl.isAssetSelected_iff]
    intro hm
    rw [CCoinControl.unSelectAsset_setAssetsSelected] at hm
    exact ((OutPointSet.mem_erase _ _ _).mp hm).1 rfl

/-- C5: `Select` is idempotent.  For every state `s` and reference `r`,
`Select(r)` applied twice gives the state `Select(r)` gives once; the vector
`ListSelected` produces in that state holds `r` exactly once; and when `r`
is already pinned in `s`, `Select(r)` returns `s`. -/
theorem C5_select_idempotent (s : CCoinControl) (r : COutPoint) :
    (s.Select r).Select r = s.Select r
      ∧ (s.Select r).ListSelected.count r = 1
      ∧ (s.IsSelected r = true → s.Select r = s) := by
  have hin : r ∈ (s.Select r).setSelected :=
    (OutPointSet.mem_insert _ _ _).mpr (Or.inl rfl)
  refine ⟨?_, ?_, ?_⟩
  · have h2 : (s.Select r).setSelected.insert r = (s.Select r).setSelected :=
      OutPointSet.insert_of_mem _ _ hin
    unfold CCoinControl.Select at h2 ⊢
    simp only at h2 ⊢
    rw [h2]
  · exact List.count_eq_one_of_mem (OutPointSet.nodup_toVector _)
      ((OutPointSet.mem_toVector _ _).mpr hin)
  · intro hsel
    have hmem : r ∈ s.setSelected := (CCoinControl.isSelected_iff s r).mp hsel
    have h1 : s.setSelected.insert r = s.setSelected := OutPointSet.insert_of_mem _ _ hmem
    unfold CCoinControl.Select
    rw [h1]

/-- C5, at a concrete input: `A` is pinned in the scenario state, and
`Select(A)` returns that state. -/
theorem C5_select_idempotent_witness :
    pinnedScenario.IsSelected outpointA = true
      ∧ pinnedScenario.Select outpointA = pinnedScenario :=
  ⟨by decide, (C5_select_idempotent pinnedScenario outpointA).2.2 (by decide)⟩

/-! ## Clearing all pins -/

/-- C6: for every state `s`, after `UnSelectAll` the vectors produced by
`ListSelected` and `ListSelectedAssets` are empty, `HasSelected` and
`HasAssetSelected` are false, and `strAssetSelected` is the empty string. -/
theorem C6_unselectAll_clears (s : CCoinControl) :
    s.UnSelectAll.ListSelected = []
      ∧ s.UnSelectAll.ListSelectedAssets = []
      ∧ s.UnSelectAll.HasSelected = false
      ∧ s.UnSelectAll.HasAssetSelected = false
      ∧ s.UnSelectAll.strAssetSelected = "" :=
  ⟨rfl, rfl, rfl, rfl, rfl⟩

/-- C7: `UnSelectAll` changes only the two pinned sets and
`strAssetSelected`.  For every state `s`, both change destinations, the four
policy flags, the three optional overrides, `m_avoid_partial_spends`,
`m_fee_mode`, `m_min_depth` and `nCoinType` are the same after `UnSelectAll`
as before; the resulting state is `s` with the two sets emptied and the
asset id cleared. -/
theorem C7_unselectAll_frame (s : CCoinControl) :
    s.UnSelectAll.destChange = s.destChange
      ∧ s.UnSelectAll.assetDestChange = s.assetDestChange
      ∧ s.UnSelectAll.fAllowOtherInputs = s.fAllowOtherInputs
      ∧ s.UnSelectAll.fRequireAllInputs = s.fRequireAllInputs
      ∧ s.UnSelectAll.fAllowWatchOnly = s.fAllowWatchOnly
      ∧ s.UnSelectAll.fOverrideFeeRate = s.fOverrideFeeRate
      ∧ s.UnSelectAll.m_feerate = s.m_feerate
      ∧ s.UnSelectAll.m_discard_feerate = s.m_discard_feerate
      ∧ s.UnSelectAll.m_confirm_target = s.m_confirm_target
      ∧ s.UnSelectAll.m_avoid_partial_spends = s.m_avoid_partial_spends
      ∧ s.UnSelectAll.m_fee_mode = s.m_fee_mode
      ∧ s.UnSelectAll.m_min_depth = s.m_min_depth
      ∧ s.UnSelectAll.nCoinType = s.nCoinType
      ∧ s.UnSelectAll
          = { s with setSelected := ∅, strAssetSelected := "", setAssetsSelected := ∅ } :=
  ⟨rfl, rfl, rfl, rfl, rfl, rfl, rfl, rfl, rfl, rfl, rfl, rfl, rfl, rfl⟩

/-! ## The two pinning families -/

/-- C8: for every state `s` and reference `r`, `Select(r)` and `UnSelect(r)`
leave the secondary-asset set and `strAssetSelected` unchanged, and
`SelectAsset(r)` and `UnSelectAsset(r)` leave the base-asset set, hence
`ListSelected` and `HasSelected`, unchanged. -/
theorem C8_families_independent (s : CCoinControl) (r : COutPoint) :
    ((s.Select r).setAssetsSelected = s.setAssetsSelected
        ∧ (s.Select r).strAssetSelected = s.strAssetSelected)
      ∧ ((s.UnSelect r).setAssetsSelected = s.setAssetsSelected
        ∧ (s.UnSelect r).strAssetSelected = s.strAssetSelected)
      ∧ ((s.SelectAsset r).setSelected = s.setSelected
        ∧ (s.SelectAsset r).ListSelected = s.ListSelected
        ∧ (s.SelectAsset r).HasSelected = s.HasSelected)
      ∧ ((s.UnSelectAsset r).setSelected = s.setSelected
        ∧ (s.UnSelectAsset r).ListSelected = s.ListSelected
        ∧ (s.UnSelectAsset r).HasSelected = s.HasSelected) := by
  refine ⟨⟨rfl, rfl⟩, ⟨rfl, rfl⟩, ⟨rfl, rfl, rfl⟩, ?_, ?_, ?_⟩
  · exact CCoinControl.unSelectAsset_setSelected s r
  · unfold CCoinControl.ListSelected
    rw [CCoinControl.unSelectAsset_setSelected]
  · unfold CCoinControl.HasSelected
    rw [CCoinControl.unSelectAsset_setSelected]

/-- C9: for every state `s` and reference `r` not in the base-asset set of
`s`, `UnSelect(r)` returns `s`. -/
theorem C9_unselect_absent_noop (s : CCoinControl) (r : COutPoint)
    (h : r ∉ s.setSelected) : s.UnSelect r = s := by
  have he : s.setSelected.erase r = s.setSelected := OutPointSet.erase_of_not_mem _ _ h
  unfold CCoinControl.UnSelect
  rw [he]

/-- C9, at a concrete input: `C` is not in the base-asset set of the
scenario state, and `UnSelect(C)` returns that state. -/
theorem C9_unselect_absent_noop_witness :
    outpointC ∉ pinnedScenario.setSelected
      ∧ pinnedScenario.UnSelect outpointC = pinnedScenario :=
  ⟨by decide, C9_unselect_absent_noop pinnedScenario outpointC (by decide)⟩

/-! ## Listing the pins -/

/-- C10: for every state `s` and reference `r`, `r` occurs in the vector
`ListSelected` produces iff `IsSelected(r)` is true, and in the vector
`ListSelectedAssets` produces iff `IsAssetSelected(r)` is true; neither
vector holds a reference twice. -/
theorem C10_list_matches_membership (s : CCoinControl) (r : COutPoint) :
    (r ∈ s.ListSelected ↔ s.IsSelected r = true)
      ∧ (r ∈ s.ListSelectedAssets ↔ s.IsAssetSelected r = true)
      ∧ s.ListSelected.Nodup
      ∧ s.ListSelectedAssets.Nodup := by
  refine ⟨?_, ?_, OutPointSet.nodup_toVector _, OutPointSet.nodup_toVector _⟩
  · rw [CCoinControl.isSelected_iff]
    exact OutPointSet.mem_toVector _ _
  · rw [CCoinControl.isAssetSelected_iff]
    exact OutPointSet.mem_toVector _ _

/-- C11: for every state `s`, `HasSelected` is true iff the base-asset set
is non-empty, which is the same as `ListSelected` producing a non-empty
vector and as some reference `r` having `IsSelected(r)`; and
`HasAssetSelected` is true iff the secondary-asset set is non-empty, with
the same two readings. -/
theorem C11_hasSelected_iff_nonempty (s : CCoinControl) :
    (s.HasSelected = true ↔ s.setSelected ≠ ∅)
      ∧ (s.HasSelected = true ↔ s.ListSelected ≠ [])
      ∧ (s.HasSelected = true ↔ ∃ r, s.IsSelected r = true)
      ∧ (s.HasAssetSelected = true ↔ s.setAssetsSelected ≠ ∅)
      ∧ (s.HasAssetSelected = true ↔ s.ListSelectedAssets ≠ [])
      ∧ (s.HasAssetSelected = true ↔ ∃ r, s.IsAssetSelected r = true) := by
  have hb : s.HasSelected = true ↔ s.setSelected.Nonempty := by
    unfold CCoinControl.HasSelected
    rw [decide_eq_true_iff]
    exact OutPointSet.size_pos_iff _
  have ha : s.HasAssetSelected = true ↔ s.setAssetsSelected.Nonempty := by
    unfold CCoinControl.HasAssetSelected
    rw [decide_eq_true_iff]
    exact OutPointSet.size_pos_iff _
  refine ⟨?_, ?_, ?_, ?_, ?_, ?_⟩
  · rw [hb]
    exact Finset.nonempty_iff_ne_empty
  · rw [hb]
    exact (OutPointSet.toVector_ne_nil_iff _).symm
  · rw [hb]
    constructor
    · rintro ⟨x, hx⟩
      exact ⟨x, (CCoinControl.isSelected_iff s x).mpr hx⟩
    · rintro ⟨x, hx⟩
      exact ⟨x, (CCoinControl.isSelected_iff s x).mp hx⟩
  · rw [ha]
    exact Finset.nonempty_iff_ne_empty
  · rw [ha]
    exact (OutPointSet.toVector_ne_nil_iff _).symm
  · rw [ha]
    constructor
    · rintro ⟨x, hx⟩
      exact ⟨x, (CCoinControl.isAssetSelected_iff s x).mpr hx⟩
    · rintro ⟨x, hx⟩
      exact ⟨x, (CCoinControl.isAssetSelected_iff s x).mp hx⟩

/-! ## The coin type -/

/-- C12: for every state `s` and boolean `b`, `IsUsingCoinJoin` evaluated
after `UseCoinJoin(b)` returns `b`; the coin type is `ONLY_FULLY_MIXED`
after `UseCoinJoin(true)` and `ALL_COINS` after `UseCoinJoin(false)`,
whatever coin type `s` holds. -/
theorem C12_useCoinJoin_then_isUsing (s : CCoinControl) (b : Bool) :
    (s.UseCoinJoin b).IsUsingCoinJoin = b
      ∧ (s.UseCoinJoin true).nCoinType = CoinType.ONLY_FULLY_MIXED
      ∧ (s.UseCoinJoin false).nCoinType = CoinType.ALL_COINS := by
  refine ⟨?_, rfl, rfl⟩
  cases b <;> rfl

/-- C13: `UseCoinJoin` changes only `nCoinType`.  For every state `s` and
boolean `b`, both pinned sets, `strAssetSelected` and every other field are
the same after `UseCoinJoin(b)` as before. -/
theorem C13_useCoinJoin_frame (s : CCoinControl) (b : Bool) :
    (s.UseCoinJoin b).setSelected = s.setSelected
      ∧ (s.UseCoinJoin b).setAssetsSelected = s.setAssetsSelected
      ∧ (s.UseCoinJoin b).strAssetSelected = s.strAssetSelected
      ∧ (s.UseCoinJoin b).destChange = s.destChange
      ∧ (s.UseCoinJoin b).assetDestChange = s.assetDestChange
      ∧ (s.UseCoinJoin b).fAllowOtherInputs = s.fAllowOtherInputs
      ∧ (s.UseCoinJoin b).fRequireAllInputs = s.fRequireAllInputs
      ∧ (s.UseCoinJoin b).fAllowWatchOnly = s.fAllowWatchOnly
      ∧ (s.UseCoinJoin b).fOverrideFeeRate = s.fOverrideFeeRate
      ∧ (s.UseCoinJoin b).m_feerate = s.m_feerate
      ∧ (s.UseCoinJoin b).m_discard_feerate = s.m_discard_feerate
      ∧ (s.UseCoinJoin b).m_confirm_target = s.m_confirm_target
      ∧ (s.UseCoinJoin b).m_avoid_partial_spends = s.m_avoid_partial_spends
      ∧ (s.UseCoinJoin b).m_fee_mode = s.m_fee_mode
      ∧ (s.UseCoinJoin b).m_min_depth = s.m_min_depth :=
  ⟨rfl, rfl, rfl, rfl, rfl, rfl, rfl, rfl, rfl, rfl, rfl, rfl, rfl, rfl, rfl⟩

/-! ## Reset -/

/-- C14: for every state `s`, `SetNull(true)` leaves `nCoinType` equal to
`ALL_COINS` and `SetNull(false)` leaves it equal to its value in `s`; hence
`IsUsingCoinJoin` is false after `UseCoinJoin(true)` followed by
`SetNull(true)`. -/
theorem C14_setNull_coinType (s : CCoinControl) :
    (s.SetNull true).nCoinType = CoinType.ALL_COINS
      ∧ (s.SetNull false).nCoinType = s.nCoinType
      ∧ ((s.UseCoinJoin true).SetNull true).IsUsingCoinJoin = false :=
  ⟨rfl, rfl, rfl⟩

/-- C15: `SetNull` is idempotent and restores the baseline.  For every
state `s` and boolean `f`, `SetNull(f)` applied twice gives the state it
gives once; after `SetNull(f)` both pinned sets are empty,
`strAssetSelected` is empty, `fAllowOtherInputs` and `fRequireAllInputs` are
true, `fAllowWatchOnly` and `fOverrideFeeRate` are false, the three optional
overrides are absent and `m_min_depth` is 0; and an instance the constructor
has just built, from whatever the members held before, is in that state with
`nCoinType = ALL_COINS`. -/
theorem C15_setNull_idempotent_baseline (s : CCoinControl) (f : Bool) :
    (s.SetNull f).SetNull f = s.SetNull f
      ∧ ((s.SetNull f).setSelected = ∅
        ∧ (s.SetNull f).setAssetsSelected = ∅
        ∧ (s.SetNull f).strAssetSelected = ""
        ∧ (s.SetNull f).fAllowOtherInputs = true
        ∧ (s.SetNull f).fRequireAllInputs = true
        ∧ (s.SetNull f).fAllowWatchOnly = false
        ∧ (s.SetNull f).fOverrideFeeRate = false
        ∧ (s.SetNull f).m_feerate = none
        ∧ (s.SetNull f).m_discard_feerate = none
        ∧ (s.SetNull f).m_confirm_target = none
        ∧ (s.SetNull f).m_min_depth = 0)
      ∧ (s.construct.setSelected = ∅
        ∧ s.construct.setAssetsSelected = ∅
        ∧ s.construct.strAssetSelected = ""
        ∧ s.construct.fAllowOtherInputs = true
        ∧ s.construct.fRequireAllInputs = true
        ∧ s.construct.fAllowWatchOnly = false
        ∧ s.construct.fOverrideFeeRate = false
        ∧ s.construct.m_feerate = none
        ∧ s.construct.m_discard_feerate = none
        ∧ s.construct.m_confirm_target = none
        ∧ s.construct.m_min_depth = 0
        ∧ s.construct.nCoinType = CoinType.ALL_COINS) := by
  refine ⟨?_, ⟨rfl, rfl, rfl, rfl, rfl, rfl, rfl, rfl, rfl, rfl, rfl⟩,
    ⟨rfl, rfl, rfl, rfl, rfl, rfl, rfl, rfl, rfl, rfl, rfl, rfl⟩⟩
  cases f <;> rfl

/-! ## Order of insertion, bounds of the coin type -/

/-- C16: insertion order is irrelevant.  For every state `s` and references
`a`, `b`, `Select(a)` then `Select(b)` gives the same state as `Select(b)`
then `Select(a)`, likewise for `SelectAsset`, so `ListSelected` and
`ListSelectedAssets` produce the same vector for both orders. -/
theorem C16_select_order_irrelevant (s : CCoinControl) (a b : COutPoint) :
    (s.Select a).Select b = (s.Select b).Select a
      ∧ (s.SelectAsset a).SelectAsset b = (s.SelectAsset b).SelectAsset a
      ∧ ((s.Select a).Select b).ListSelected = ((s.Select b).Select a).ListSelected
      ∧ ((s.SelectAsset a).SelectAsset b).ListSelectedAssets
          = ((s.SelectAsset b).SelectAsset a).ListSelectedAssets := by
  have h1 : (s.Select a).Select b = (s.Select b).Select a := by
    unfold CCoinControl.Select
    simp only
    rw [OutPointSet.insert_comm]
  have h2 : (s.SelectAsset a).SelectAsset b = (s.SelectAsset b).SelectAsset a := by
    unfold CCoinControl.SelectAsset
    simp only
    rw [OutPointSet.insert_comm]
  exact ⟨h1, h2, by rw [h1], by rw [h2]⟩

/-- C17: `MIN_COIN_TYPE` equals `ALL_COINS`, `MAX_COIN_TYPE` equals
`ONLY_COINJOIN_COLLATERAL`, each of the six named coin types has an
underlying value between those of `MIN_COIN_TYPE` and `MAX_COIN_TYPE`
inclusive, and for every state, whatever coin type it holds (one outside
the bounds included), and every boolean `b`, the coin type `UseCoinJoin(b)`
stores is within those bounds. -/
theorem C17_coinType_within_bounds :
    CoinType.MIN_COIN_TYPE = CoinType.ALL_COINS
      ∧ CoinType.MAX_COIN_TYPE = CoinType.ONLY_COINJOIN_COLLATERAL
      ∧ (CoinType.MIN_COIN_TYPE.underlying ≤ CoinType.ALL_COINS.underlying
        ∧ CoinType.ALL_COINS.underlying ≤ CoinType.MAX_COIN_TYPE.underlying)
      ∧ (CoinType.MIN_COIN_TYPE.underlying ≤ CoinType.ONLY_FULLY_MIXED.underlying
        ∧ CoinType.ONLY_FULLY_MIXED.underlying ≤ CoinType.MAX_COIN_TYPE.underlying)
      ∧ (CoinType.MIN_COIN_TYPE.underlying ≤ CoinType.ONLY_READY_TO_MIX.underlying
        ∧ CoinType.ONLY_READY_TO_MIX.underlying ≤ CoinType.MAX_COIN_TYPE.underlying)
      ∧ (CoinType.MIN_COIN_TYPE.underlying ≤ CoinType.ONLY_NONDENOMINATED.underlying
        ∧ CoinType.ONLY_NONDENOMINATED.underlying ≤ CoinType.MAX_COIN_TYPE.underlying)
      ∧ (CoinType.MIN_COIN_TYPE.underlying ≤ CoinType.ONLY_SMARTNODE_COLLATERAL.underlying
        ∧ CoinType.ONLY_SMARTNODE_COLLATERAL.underlying ≤ CoinType.MAX_COIN_TYPE.underlying)
      ∧ (CoinType.MIN_COIN_TYPE.underlying ≤ CoinType.ONLY_COINJOIN_COLLATERAL.underlying
        ∧ CoinType.ONLY_COINJOIN_COLLATERAL.underlying ≤ CoinType.MAX_COIN_TYPE.underlying)
      ∧ ∀ (s : CCoinControl) (b : Bool),
          CoinType.MIN_COIN_TYPE.underlying ≤ (s.UseCoinJoin b).nCoinType.underlying
            ∧ (s.UseCoinJoin b).nCoinType.underlying ≤ CoinType.MAX_COIN_TYPE.underlying := by
  refine ⟨rfl, rfl, by decide, by decide, by decide, by decide, by decide, by decide, ?_⟩
  intro s b
  cases b
  · show CoinType.MIN_COIN_TYPE.underlying ≤ CoinType.ALL_COINS.underlying
      ∧ CoinType.ALL_COINS.underlying ≤ CoinType.MAX_COIN_TYPE.underlying
    decide
  · show CoinType.MIN_COIN_TYPE.underlying ≤ CoinType.ONLY_FULLY_MIXED.underlying
      ∧ CoinType.ONLY_FULLY_MIXED.underlying ≤ CoinType.MAX_COIN_TYPE.underlying
    decide

/-! ## What the calls do besides the claims above -/

/-- C18: for every state `s` and reference `r`, after `UnSelectAsset(r)`
`strAssetSelected` is the empty string if the base-asset set of `s` is empty
(`HasSelected` false) and is equal to its value in `s` otherwise; the
secondary-asset set plays no part. -/
theorem C18_unselectAsset_asset_id (s : CCoinControl) (r : COutPoint) :
    (s.HasSelected = false → (s.UnSelectAsset r).strAssetSelected = "")
      ∧ (s.HasSelected = true → (s.UnSelectAsset r).strAssetSelected = s.strAssetSelected) := by
  rw [CCoinControl.unSelectAsset_strAssetSelected]
  unfold CCoinControl.HasSelected
  constructor
  · intro h
    have hz : s.setSelected.size = 0 := by
      have := of_decide_eq_false h
      omega
    rw [if_pos hz]
  · intro h
    have hz : ¬ s.setSelected.size = 0 := by
      have := of_decide_eq_true h
      omega
    rw [if_neg hz]

/-- C18, at concrete inputs.  With no base-asset pin and the asset pins `A`
and `C`, `UnSelectAsset(C)` clears the asset id although `A` is still
pinned; with the base-asset pins `A`, `B` and the only asset pin `C`,
`UnSelectAsset(C)` keeps the asset id although no asset pin is left. -/
theorem C18_unselectAsset_asset_id_witness :
    (((assetIdOnlyControl.SelectAsset outpointA).SelectAsset outpointC).HasSelected = false
        ∧ (((assetIdOnlyControl.SelectAsset outpointA).SelectAsset outpointC).UnSelectAsset
            outpointC).HasAssetSelected = true
        ∧ (((assetIdOnlyControl.SelectAsset outpointA).SelectAsset outpointC).UnSelectAsset
            outpointC).strAssetSelected = "")
      ∧ (pinnedScenario.HasSelected = true
        ∧ (pinnedScenario.UnSelectAsset outpointC).HasAssetSelected = false
        ∧ (pinnedScenario.UnSelectAsset outpointC).strAssetSelected
            = pinnedScenario.strAssetSelected) :=
  ⟨⟨by decide, by decide,
      (C18_unselectAsset_asset_id
        ((assetIdOnlyControl.SelectAsset outpointA).SelectAsset outpointC) outpointC).1
        (by decide)⟩,
    ⟨by decide, by decide,
      (C18_unselectAsset_asset_id pinnedScenario outpointC).2 (by decide)⟩⟩

/-- C19: pinning or unpinning one reference never changes the membership of
another.  For every state `s` and references `q ≠ r`, `IsSelected(r)` has
the same value after `Select(q)` and after `UnSelect(q)` as in `s`, and
`IsAssetSelected(r)` has the same value after `SelectAsset(q)` and after
`UnSelectAsset(q)` as in `s`. -/
theorem C19_other_reference_untouched (s : CCoinControl) (q r : COutPoint) (h : q ≠ r) :
    (s.Select q).IsSelected r = s.IsSelected r
      ∧ (s.UnSelect q).IsSelected r = s.IsSelected r
      ∧ (s.SelectAsset q).IsAssetSelected r = s.IsAssetSelected r
      ∧ (s.UnSelectAsset q).IsAssetSelected r = s.IsAssetSelected r := by
  have hrq : r ≠ q := fun e => h e.symm
  have hins : ∀ t : OutPointSet, r ∈ t.insert q ↔ r ∈ t := fun t =>
    (OutPointSet.mem_insert t q r).trans (or_iff_right hrq)
  have hera : ∀ t : OutPointSet, r ∈ t.erase q ↔ r ∈ t := fun t =>
    (OutPointSet.mem_erase t q r).trans (and_iff_right hrq)
  refine ⟨?_, ?_, ?_, ?_⟩
  · rw [Bool.eq_iff_iff, CCoinControl.isSelected_iff, CCoinControl.isSelected_iff]
    exact hins _
  · rw [Bool.eq_iff_iff, CCoinControl.isSelected_iff, CCoinControl.isSelected_iff]
    exact hera _
  · rw [Bool.eq_iff_iff, CCoinControl.isAssetSelected_iff, CCoinControl.isAssetSelected_iff]
    exact hins _
  · rw [Bool.eq_iff_iff, CCoinControl.isAssetSelected_iff, CCoinControl.isAssetSelected_iff,
      CCoinControl.unSelectAsset_setAssetsSelected]
    exact hera _

/-- C19, at a concrete input: `A ≠ B`, `B` is pinned in the state
`customControl`, and it is still pinned after `UnSelect(A)` and after
`Select(A)`. -/
theorem C19_other_reference_untouched_witness :
    outpointA ≠ outpointB
      ∧ customControl.IsSelected outpointB = true
      ∧ (customControl.Select outpointA).IsSelected outpointB
          = customControl.IsSelected outpointB
      ∧ (customControl.UnSelect outpointA).IsSelected outpointB
          = customControl.IsSelected outpointB :=
  ⟨by decide, by decide,
    (C19_other_reference_untouched customControl outpointA outpointB (by decide)).1,
    (C19_other_reference_untouched customControl outpointA outpointB (by decide)).2.1⟩

/-- C20: `UnSelect` undoes `Select` on a reference that was not pinned.  For
every state `s` and reference `r` with `IsSelected(r)` false in `s`,
`Select(r)` followed by `UnSelect(r)` gives a state equal to `s`. -/
theorem C20_unselect_undoes_select (s : CCoinControl) (r : COutPoint)
    (h : s.IsSelected r = false) : (s.Select r).UnSelect r = s := by
  have hm : r ∉ s.setSelected := by
    intro hin
    rw [(CCoinControl.isSelected_iff s r).mpr hin] at h
    exact Bool.noConfusion h
  have he : (s.setSelected.insert r).erase r = s.setSelected :=
    OutPointSet.erase_insert _ _ hm
  unfold CCoinControl.UnSelect CCoinControl.Select
  simp only
  rw [he]

/-- C20, at a concrete input: `A` is not pinned in the state
`customControl`, and `Select(A)` followed by `UnSelect(A)` returns that
state. -/
theorem C20_unselect_undoes_select_witness :
    customControl.IsSelected outpointA = false
      ∧ (customControl.Select outpointA).UnSelect outpointA = customControl :=
  ⟨by decide, C20_unselect_undoes_select customControl outpointA (by decide)⟩
